import Mathlib

/-!
Verification development for the ai-buddy backend's two algorithmic cores:
the Bayesian personality-trait estimator (`services/personality_service.py`,
profile defaults from `services/supabase_service.py`) and the semantic
conversational memory (`services/memory_service.py`).

Numbers are modelled as exact rationals (`ℚ`).  The external collaborators
(OpenAI embedding generation, the ChromaDB vector index) are modelled
explicitly: embedding generation as a function parameter that may fail, and
the ChromaDB collection as a list of records with add/query semantics taken
from the spec's description of the vector index persistence interface.
-/

/-! ## Personality subsystem: data model

Mirrors the evidence payload consumed by
`PersonalityService._bayesian_update` (a dict keyed by the four dimension
names, each value a dict that may carry a `score` and an `evidence` snippet
list) and the profile row created by
`SupabaseService.get_or_create_personality_profile`. -/

/-- Per-dimension evidence payload: `evidence.get(dim, {})` may lack either
the `score` or the `evidence` key, hence both fields are optional. -/
structure DimEvidence where
  score : Option ℚ
  evidence : Option (List String)
deriving DecidableEq

/-- Evidence object keyed by the four dimensions; a missing dimension key is
`none` (Python's `evidence.get(dim, {})` then returns the empty dict). -/
structure Evidence where
  extroversion : Option DimEvidence
  sensing : Option DimEvidence
  thinking : Option DimEvidence
  judging : Option DimEvidence
deriving DecidableEq

/-- Entry of the profile's evidence log, as built by
`PersonalityService._add_evidence_to_log`. -/
structure EvidenceEntry where
  timestamp : String
  session_summary : String
  evidence : Evidence
deriving DecidableEq

/-- Personality profile row: four trait scores, four confidences, the
session counter and the evidence log. -/
structure PersonalityProfile where
  extroversion_score : ℚ
  sensing_score : ℚ
  thinking_score : ℚ
  judging_score : ℚ
  extroversion_confidence : ℚ
  sensing_confidence : ℚ
  thinking_confidence : ℚ
  judging_confidence : ℚ
  sessions_analyzed : ℕ
  evidence_log : List EvidenceEntry
deriving DecidableEq

/-- Fresh profile created by `SupabaseService.get_or_create_personality_profile`
for a user with no prior profile: all scores 0.5, all confidences 0.0,
`sessions_analyzed` 0 and an empty evidence log. -/
def initialPersonalityProfile : PersonalityProfile where
  extroversion_score := 0.5
  sensing_score := 0.5
  thinking_score := 0.5
  judging_score := 0.5
  extroversion_confidence := 0.0
  sensing_confidence := 0.0
  thinking_confidence := 0.0
  judging_confidence := 0.0
  sessions_analyzed := 0
  evidence_log := []

/-! ## Personality subsystem: trait update
(`PersonalityService._bayesian_update`, lines 87-126) -/

/-- Line 104: `evidence_weight = min(evidence_strength * 0.1, 0.5)`. -/
def evidenceWeight (strength : ℕ) : ℚ := min ((strength : ℚ) * 0.1) 0.5

/-- Line 108: `prior_weight = current_confidence * sessions_analyzed * 0.1`. -/
def priorWeight (conf : ℚ) (sessions : ℕ) : ℚ := conf * (sessions : ℚ) * 0.1

/-- Line 119: `updated_score = max(0.0, min(1.0, updated_score))`. -/
def clampScore (x : ℚ) : ℚ := max 0 (min 1 x)

/-- Lines 109-115: the `updated_score` value before the defensive clamp of
line 119 — the weighted average when `total_weight > 0`, otherwise the
unchanged current score. -/
def rawUpdatedScore (score conf : ℚ) (sessions : ℕ) (evScore : ℚ) (strength : ℕ) : ℚ :=
  if priorWeight conf sessions + evidenceWeight strength > 0 then
    (score * priorWeight conf sessions + evScore * evidenceWeight strength) /
      (priorWeight conf sessions + evidenceWeight strength)
  else score

/-- Lines 109-116: the `updated_confidence` value —
`min(current_confidence + evidence_weight * 0.1, 1.0)` when
`total_weight > 0`, otherwise the unchanged current confidence. -/
def updatedConfidence (conf : ℚ) (sessions : ℕ) (strength : ℕ) : ℚ :=
  if priorWeight conf sessions + evidenceWeight strength > 0 then
    min (conf + evidenceWeight strength * 0.1) 1
  else conf

/-- Per-dimension result of `_bayesian_update` (the
`{'score': ..., 'confidence': ...}` dict). -/
structure DimUpdate where
  score : ℚ
  confidence : ℚ
deriving DecidableEq

/-- Lines 94-124 for one dimension: read the dimension's evidence with the
Python defaults (`score` defaulting to 0.5, snippet list to `[]`,
`evidence_strength` its length), then produce the clamped updated score and
the updated confidence. -/
def updateDim (score conf : ℚ) (sessions : ℕ) (ev : Option DimEvidence) : DimUpdate :=
  let dimEv := ev.getD ⟨none, none⟩
  let evScore := dimEv.score.getD 0.5
  let strength := (dimEv.evidence.getD []).length
  { score := clampScore (rawUpdatedScore score conf sessions evScore strength)
    confidence := updatedConfidence conf sessions strength }

/-- Result of `_bayesian_update`: one `DimUpdate` per dimension. -/
structure UpdatedScores where
  extroversion : DimUpdate
  sensing : DimUpdate
  thinking : DimUpdate
  judging : DimUpdate
deriving DecidableEq

/-- Function `PersonalityService._bayesian_update`: the per-dimension update applied
independently to each of the four dimensions. -/
def bayesianUpdate (p : PersonalityProfile) (ev : Evidence) : UpdatedScores where
  extroversion := updateDim p.extroversion_score p.extroversion_confidence p.sessions_analyzed ev.extroversion
  sensing := updateDim p.sensing_score p.sensing_confidence p.sessions_analyzed ev.sensing
  thinking := updateDim p.thinking_score p.thinking_confidence p.sessions_analyzed ev.thinking
  judging := updateDim p.judging_score p.judging_confidence p.sessions_analyzed ev.judging

/-- Evidence-log entry construction of `_add_evidence_to_log` lines 130-134:
the session summary is truncated to 500 characters. -/
def mkEvidenceEntry (ts session_summary : String) (ev : Evidence) : EvidenceEntry where
  timestamp := ts
  session_summary := session_summary.take 500
  evidence := ev

/-- Function `PersonalityService._add_evidence_to_log` lines 136-140: append the new
entry, then keep only the last 50 entries if the log exceeds 50. -/
def addEvidenceToLog (log : List EvidenceEntry) (entry : EvidenceEntry) : List EvidenceEntry :=
  if (log ++ [entry]).length > 50 then
    (log ++ [entry]).drop ((log ++ [entry]).length - 50)
  else log ++ [entry]

/-- Function `PersonalityService._calculate_overall_confidence` lines 142-157. -/
def calculateOverallConfidence (p : PersonalityProfile) : ℚ :=
  let avg := (p.extroversion_confidence + p.sensing_confidence +
    p.thinking_confidence + p.judging_confidence) / 4
  let sessionMultiplier := min ((p.sessions_analyzed : ℚ) / 10) 1
  min (avg * sessionMultiplier) 1

/-- The profile-mutating part of
`PersonalityService.update_personality_from_session` lines 28-46: new scores
and confidences from `_bayesian_update`, `sessions_analyzed` incremented by
one, and the evidence log extended through `_add_evidence_to_log`. -/
def updateProfileFromSession (p : PersonalityProfile) (ev : Evidence)
    (session_summary ts : String) : PersonalityProfile :=
  let u := bayesianUpdate p ev
  { extroversion_score := u.extroversion.score
    sensing_score := u.sensing.score
    thinking_score := u.thinking.score
    judging_score := u.judging.score
    extroversion_confidence := u.extroversion.confidence
    sensing_confidence := u.sensing.confidence
    thinking_confidence := u.thinking.confidence
    judging_confidence := u.judging.confidence
    sessions_analyzed := p.sessions_analyzed + 1
    evidence_log := addEvidenceToLog p.evidence_log (mkEvidenceEntry ts session_summary ev) }

/-- Function `PersonalityService._calculate_mbti_type` lines 79-85: each dimension is
resolved by `score > 0.5` picking the E/S/T/J character, the four characters
concatenated. -/
def calculateMbtiType (p : PersonalityProfile) : String :=
  let eOrI := if p.extroversion_score > 0.5 then 'E' else 'I'
  let sOrN := if p.sensing_score > 0.5 then 'S' else 'N'
  let tOrF := if p.thinking_score > 0.5 then 'T' else 'F'
  let jOrP := if p.judging_score > 0.5 then 'J' else 'P'
  String.mk [eOrI, sOrN, tOrF, jOrP]

/-! ## Range predicates used by the invariant claims -/

/-- All four scores and all four confidences of a profile lie in `[0, 1]`. -/
def profileInRange (p : PersonalityProfile) : Prop :=
  (0 ≤ p.extroversion_score ∧ p.extroversion_score ≤ 1) ∧
  (0 ≤ p.sensing_score ∧ p.sensing_score ≤ 1) ∧
  (0 ≤ p.thinking_score ∧ p.thinking_score ≤ 1) ∧
  (0 ≤ p.judging_score ∧ p.judging_score ≤ 1) ∧
  (0 ≤ p.extroversion_confidence ∧ p.extroversion_confidence ≤ 1) ∧
  (0 ≤ p.sensing_confidence ∧ p.sensing_confidence ≤ 1) ∧
  (0 ≤ p.thinking_confidence ∧ p.thinking_confidence ≤ 1) ∧
  (0 ≤ p.judging_confidence ∧ p.judging_confidence ≤ 1)

/-- All four confidences of a profile lie in `[0, 1]`. -/
def confidencesInRange (p : PersonalityProfile) : Prop :=
  (0 ≤ p.extroversion_confidence ∧ p.extroversion_confidence ≤ 1) ∧
  (0 ≤ p.sensing_confidence ∧ p.sensing_confidence ≤ 1) ∧
  (0 ≤ p.thinking_confidence ∧ p.thinking_confidence ≤ 1) ∧
  (0 ≤ p.judging_confidence ∧ p.judging_confidence ≤ 1)

/-- The point estimate carried by one dimension's evidence, when present,
lies in `[0, 1]`. -/
def dimEvidenceScoreInRange (e : Option DimEvidence) : Prop :=
  ∀ d s, e = some d → d.score = some s → 0 ≤ s ∧ s ≤ 1

/-- Every per-dimension point estimate present in the evidence lies in
`[0, 1]`. -/
def evidenceScoresInRange (ev : Evidence) : Prop :=
  dimEvidenceScoreInRange ev.extroversion ∧ dimEvidenceScoreInRange ev.sensing ∧
  dimEvidenceScoreInRange ev.thinking ∧ dimEvidenceScoreInRange ev.judging

/-- Evidence object with every dimension omitted (the empty evidence dict). -/
def emptyEvidence : Evidence where
  extroversion := none
  sensing := none
  thinking := none
  judging := none

/-! ## Memory subsystem: data model

`MemoryService` stores messages through the external ChromaDB collection and
the external OpenAI embedding endpoint.  The embedding endpoint is a
function parameter returning `none` on failure; the collection is a list of
records. -/

/-- Embedding generator collaborator: `embed(text)` yields a vector or
fails. -/
abbrev EmbedFn := String → Option (List ℚ)

/-- Record held by the ChromaDB `chat_memory` collection, as written by
`MemoryService._save_to_chroma` lines 189-198: document text, embedding and
the `user_id`/`message_id`/`created_at` metadata, with the message id used
as the collection id. -/
structure ChromaRecord where
  id : String
  document : String
  embedding : List ℚ
  user_id : String
  message_id : String
  created_at : String
deriving DecidableEq

/-- Modelled from the spec: the vector index's state — the spec's Vector
Memory Store is an append-only store of (text, embedding, metadata) tuples
(spec sections 2 and 3); the ChromaDB engine itself is an external
collaborator, so its state is modelled as the list of added records. -/
abbrev ChromaCollection := List ChromaRecord

/-- Modelled from the spec: `add(id, embedding, metadata)` of the vector
index persistence interface (spec section 6) appends one record to the
append-only store. -/
def chromaAdd (c : ChromaCollection) (r : ChromaRecord) : ChromaCollection := c ++ [r]

/-- Squared Euclidean distance between two embedding vectors, ChromaDB's
default distance for `query`. -/
def sqDist (a b : List ℚ) : ℚ := (List.zipWith (fun x y => (x - y) * (x - y)) a b).sum

/-- Ordering of scored records by ascending distance. -/
def distLE (a b : ChromaRecord × ℚ) : Prop := a.2 ≤ b.2

instance : DecidableRel distLE :=
  fun a b => inferInstanceAs (Decidable (a.2 ≤ b.2))

instance : IsTotal (ChromaRecord × ℚ) distLE := ⟨fun a b => le_total a.2 b.2⟩

instance : IsTrans (ChromaRecord × ℚ) distLE := ⟨fun _ _ _ h1 h2 => le_trans h1 h2⟩

/-- Modelled from the spec: `query(embedding, filter, k)` of the vector
index persistence interface (spec sections 4.4 and 6) — a nearest-neighbor
search restricted by the metadata filter `where={"user_id": user_id}`,
returning up to `k` results by ascending distance, ties by insertion
order. -/
def chromaQuery (c : ChromaCollection) (queryEmbedding : List ℚ) (uid : String)
    (k : ℕ) : List (ChromaRecord × ℚ) :=
  let scored := (c.filter (fun r => r.user_id == uid)).map
    (fun r => (r, sqDist queryEmbedding r.embedding))
  (List.insertionSort distLE scored).take k

/-- Function `MemoryService._generate_embedding` lines 113-146: call the embedding
collaborator, fail if it fails or if the returned vector is not
1536-dimensional. -/
def generateEmbedding (embed : EmbedFn) (text : String) : Option (List ℚ) :=
  match embed text with
  | none => none
  | some e => if e.length = 1536 then some e else none

/-- Function `MemoryService._save_to_database` lines 148-169: a stub that writes
nothing and reports success. -/
def save_to_database (_user_id _message _message_id : String) : Bool := true

/-- Function `MemoryService._save_to_chroma` lines 171-205: add the record with its
`user_id`/`message_id`/`created_at` metadata to the collection. -/
def save_to_chroma (c : ChromaCollection) (uid message mid : String)
    (embedding : List ℚ) (ts : String) : ChromaCollection × Bool :=
  let r : ChromaRecord :=
    { id := mid, document := message, embedding := embedding,
      user_id := uid, message_id := mid, created_at := ts }
  (chromaAdd c r, true)

/-- Outcome dict of `MemoryService.store_message`. -/
structure StoreResult where
  success : Bool
  database_saved : Bool
  chroma_saved : Bool
deriving DecidableEq

/-- Function `MemoryService.store_message` lines 207-261: generate the embedding
first; on failure return the error result without touching any store;
otherwise save to the database stub and to the collection, reporting
success only when both saves succeed.  The generated uuid and timestamp are
nondeterministic inputs, passed as parameters. -/
def store_message (embed : EmbedFn) (c : ChromaCollection)
    (uid message mid ts : String) : ChromaCollection × StoreResult :=
  match generateEmbedding embed message with
  | none => (c, { success := false, database_saved := false, chroma_saved := false })
  | some e =>
    let db := save_to_database uid message mid
    let ch := save_to_chroma c uid message mid e ts
    (ch.1, { success := db && ch.2, database_saved := db, chroma_saved := ch.2 })

/-- One `store_message` call in a trace: the storing owner, the message and
the nondeterministically generated id and timestamp. -/
structure StoreOp where
  user_id : String
  message : String
  message_id : String
  created_at : String
deriving DecidableEq

/-- Replay a sequence of `store_message` calls against the collection. -/
def runStores (embed : EmbedFn) (c : ChromaCollection) : List StoreOp → ChromaCollection
  | [] => c
  | op :: ops =>
    runStores embed (store_message embed c op.user_id op.message op.message_id op.created_at).1 ops

/-- Entry of the `similar_messages` list built by
`MemoryService.find_similar_messages` lines 304-317 (`detected_emotion` is
the key added later by `get_emotional_insights`, absent — empty — until
then). -/
structure SimilarMessage where
  message : String
  message_id : String
  created_at : String
  similarity_score : ℚ
  distance : ℚ
  detected_emotion : String
deriving DecidableEq

/-- Result dict of `MemoryService.find_similar_messages`. -/
structure SimilarResult where
  success : Bool
  similar_messages : List SimilarMessage
deriving DecidableEq

/-- Function `MemoryService.find_similar_messages` lines 263-339: embed the query
(failure yields an unsuccessful result with no messages), query the
collection restricted to the user, and format each hit with
`similarity_score = 1.0 - distance`. -/
def find_similar_messages (embed : EmbedFn) (c : ChromaCollection)
    (uid message : String) (top_k : ℕ) : SimilarResult :=
  match generateEmbedding embed message with
  | none => { success := false, similar_messages := [] }
  | some qe =>
    { success := true
      similar_messages := (chromaQuery c qe uid top_k).map (fun rd =>
        { message := rd.1.document, message_id := rd.1.message_id,
          created_at := rd.1.created_at, similarity_score := 1 - rd.2,
          distance := rd.2, detected_emotion := "" }) }

/-! ## Memory subsystem: emotional insights
(`MemoryService.get_emotional_insights`, lines 432-496) -/

/-- Default emotion vocabulary of `get_emotional_insights` lines 443-447. -/
def defaultEmotionKeywords : List String :=
  ["happy", "sad", "angry", "excited", "worried", "anxious",
   "grateful", "frustrated", "peaceful", "stressed", "joyful", "lonely"]

/-- Lines 450-463: for each emotion keyword query the probe phrase
`"I feel " + emotion` with `top_k = 3`, and when the query succeeded with a
nonempty hit list, tag every hit with the emotion and pool it. -/
def pooledEmotionalMessages (embed : EmbedFn) (c : ChromaCollection) (uid : String)
    (emotion_keywords : List String) : List SimilarMessage :=
  emotion_keywords.flatMap (fun emotion =>
    let r := find_similar_messages embed c uid ("I feel " ++ emotion) 3
    if r.success && !r.similar_messages.isEmpty then
      r.similar_messages.map (fun m => { m with detected_emotion := emotion })
    else [])

/-- Descending-similarity ordering used by the
`emotional_messages.sort(key=..., reverse=True)` call of line 466. -/
def simDescRel (a b : SimilarMessage) : Prop :=
  b.similarity_score ≤ a.similarity_score

instance : DecidableRel simDescRel :=
  fun a b => inferInstanceAs (Decidable (b.similarity_score ≤ a.similarity_score))

instance : IsTotal SimilarMessage simDescRel := ⟨fun a b => le_total b.similarity_score a.similarity_score⟩

instance : IsTrans SimilarMessage simDescRel := ⟨fun _ _ _ h1 h2 => le_trans h2 h1⟩

/-- Lines 469-475: walk the sorted pool keeping each message whose id is
truthy (nonempty) and not seen yet, accumulating seen ids. -/
def removeDuplicateMessages (seen : List String) : List SimilarMessage → List SimilarMessage
  | [] => []
  | m :: rest =>
    if m.message_id ≠ "" ∧ m.message_id ∉ seen then
      m :: removeDuplicateMessages (m.message_id :: seen) rest
    else
      removeDuplicateMessages seen rest

/-- Result dict of `get_emotional_insights`. -/
structure InsightsResult where
  success : Bool
  emotional_messages : List SimilarMessage
  total_found : ℕ
deriving DecidableEq

/-- Function `MemoryService.get_emotional_insights` lines 449-487: pool the
per-emotion query results, sort by similarity score descending, drop
duplicate message ids keeping the first (highest-scoring) occurrence, and
return the top 10. -/
def get_emotional_insights (embed : EmbedFn) (c : ChromaCollection) (uid : String)
    (emotion_keywords : List String) : InsightsResult :=
  let sorted := List.insertionSort simDescRel (pooledEmotionalMessages embed c uid emotion_keywords)
  let unique := removeDuplicateMessages [] sorted
  { success := true, emotional_messages := unique.take 10, total_found := unique.length }

/-! ## Helper lemmas about the trait-update arithmetic -/

theorem evidenceWeight_nonneg (strength : ℕ) : 0 ≤ evidenceWeight strength :=
  le_min (mul_nonneg (Nat.cast_nonneg strength) (by norm_num)) (by norm_num)

theorem priorWeight_nonneg (conf : ℚ) (sessions : ℕ) (hc : 0 ≤ conf) :
    0 ≤ priorWeight conf sessions :=
  mul_nonneg (mul_nonneg hc (Nat.cast_nonneg sessions)) (by norm_num)

theorem clampScore_nonneg (x : ℚ) : 0 ≤ clampScore x := le_max_left 0 _

theorem clampScore_le_one (x : ℚ) : clampScore x ≤ 1 :=
  max_le (by norm_num) (min_le_left 1 x)

theorem clampScore_eq_self {x : ℚ} (h0 : 0 ≤ x) (h1 : x ≤ 1) : clampScore x = x := by
  unfold clampScore
  rw [min_eq_right h1, max_eq_right h0]

theorem updatedConfidence_mono (conf : ℚ) (sessions strength : ℕ) (h1 : conf ≤ 1) :
    conf ≤ updatedConfidence conf sessions strength := by
  unfold updatedConfidence
  split_ifs with h
  · exact le_min
      (le_add_of_nonneg_right (mul_nonneg (evidenceWeight_nonneg strength) (by norm_num))) h1
  · exact le_refl conf

theorem updatedConfidence_nonneg (conf : ℚ) (sessions strength : ℕ) (h0 : 0 ≤ conf) :
    0 ≤ updatedConfidence conf sessions strength := by
  unfold updatedConfidence
  split_ifs with h
  · exact le_min
      (add_nonneg h0 (mul_nonneg (evidenceWeight_nonneg strength) (by norm_num))) (by norm_num)
  · exact h0

theorem updatedConfidence_le_one (conf : ℚ) (sessions strength : ℕ) (h1 : conf ≤ 1) :
    updatedConfidence conf sessions strength ≤ 1 := by
  unfold updatedConfidence
  split_ifs with h
  · exact min_le_right _ 1
  · exact h1

theorem rawUpdatedScore_mem (score conf evScore : ℚ) (sessions strength : ℕ)
    (hs0 : 0 ≤ score) (hs1 : score ≤ 1) (he0 : 0 ≤ evScore) (he1 : evScore ≤ 1)
    (hc : 0 ≤ conf) :
    0 ≤ rawUpdatedScore score conf sessions evScore strength ∧
      rawUpdatedScore score conf sessions evScore strength ≤ 1 := by
  unfold rawUpdatedScore
  split_ifs with h
  · have hpw := priorWeight_nonneg conf sessions hc
    have hew := evidenceWeight_nonneg strength
    constructor
    · exact div_nonneg (add_nonneg (mul_nonneg hs0 hpw) (mul_nonneg he0 hew)) (le_of_lt h)
    · rw [div_le_one h]
      exact add_le_add (mul_le_of_le_one_left hpw hs1) (mul_le_of_le_one_left hew he1)
  · exact ⟨hs0, hs1⟩

theorem updateDim_score_bounds (score conf : ℚ) (sessions : ℕ) (ev : Option DimEvidence) :
    0 ≤ (updateDim score conf sessions ev).score ∧ (updateDim score conf sessions ev).score ≤ 1 :=
  ⟨clampScore_nonneg _, clampScore_le_one _⟩

theorem updateDim_confidence_bounds (score conf : ℚ) (sessions : ℕ) (ev : Option DimEvidence)
    (h0 : 0 ≤ conf) (h1 : conf ≤ 1) :
    0 ≤ (updateDim score conf sessions ev).confidence ∧
      (updateDim score conf sessions ev).confidence ≤ 1 :=
  ⟨updatedConfidence_nonneg conf sessions _ h0, updatedConfidence_le_one conf sessions _ h1⟩

theorem updateDim_confidence_mono (score conf : ℚ) (sessions : ℕ) (ev : Option DimEvidence)
    (h1 : conf ≤ 1) : conf ≤ (updateDim score conf sessions ev).confidence :=
  updatedConfidence_mono conf sessions _ h1

/-- An omitted dimension leaves score and confidence unchanged as long as
the current score is in `[0, 1]` and the current confidence is at most 1. -/
theorem updateDim_none (score conf : ℚ) (sessions : ℕ)
    (hs0 : 0 ≤ score) (hs1 : score ≤ 1) (hc1 : conf ≤ 1) :
    updateDim score conf sessions none = ⟨score, conf⟩ := by
  have hew : evidenceWeight 0 = 0 := by norm_num [evidenceWeight]
  unfold updateDim rawUpdatedScore updatedConfidence
  simp only [Option.getD_none, List.length_nil, hew, add_zero, mul_zero, zero_mul]
  split_ifs with h
  · have hne : priorWeight conf sessions ≠ 0 := ne_of_gt h
    rw [mul_div_cancel_right₀ _ hne]
    rw [clampScore_eq_self hs0 hs1, min_eq_left hc1]
  · rw [clampScore_eq_self hs0 hs1]

/-- The evidence log after `_add_evidence_to_log` is exactly the suffix of
the appended log that keeps the 50 most recent entries. -/
theorem addEvidenceToLog_eq (log : List EvidenceEntry) (entry : EvidenceEntry) :
    addEvidenceToLog log entry = (log ++ [entry]).drop (log.length + 1 - 50) := by
  unfold addEvidenceToLog
  have hlen : (log ++ [entry]).length = log.length + 1 := by simp
  split_ifs with h
  · rw [hlen]
  · have h0 : log.length + 1 - 50 = 0 := by omega
    rw [h0, List.drop_zero]

theorem addEvidenceToLog_length_le (log : List EvidenceEntry) (entry : EvidenceEntry) :
    (addEvidenceToLog log entry).length ≤ 50 := by
  rw [addEvidenceToLog_eq, List.length_drop]
  simp only [List.length_append, List.length_singleton]
  omega

/-- Flipping the strict pole comparison into the spec's tie-goes-to-≤ form. -/
theorem poleChar (x : ℚ) (a b : Char) :
    (if x > 0.5 then a else b) = (if x ≤ 0.5 then b else a) := by
  rcases le_or_lt x 0.5 with h | h
  · rw [if_neg (not_lt.mpr h), if_pos h]
  · rw [if_pos h, if_neg (not_le.mpr h)]

/-! ## Claim theorems: personality subsystem -/

/-- Evidence of claim C1: only extroversion present, score 0.8, three
supporting snippets. -/
def c1Evidence : Evidence where
  extroversion := some { score := some 0.8, evidence := some ["..", "..", ".."] }
  sensing := none
  thinking := none
  judging := none

/-- C1: for a user with no prior profile (all scores 0.5, all confidences
0.0, `sessions_analyzed` 0), a trait update with evidence only for
extroversion — score 0.8 with 3 supporting snippets — yields extroversion
score exactly 0.8 and extroversion confidence exactly 0.03, while the other
three dimensions keep score 0.5 and confidence 0.0. -/
theorem claim1_first_session_extroversion_update :
    bayesianUpdate initialPersonalityProfile c1Evidence =
      { extroversion := { score := 0.8, confidence := 0.03 }
        sensing := { score := 0.5, confidence := 0 }
        thinking := { score := 0.5, confidence := 0 }
        judging := { score := 0.5, confidence := 0 } } := by
  norm_num [bayesianUpdate, updateDim, rawUpdatedScore, updatedConfidence,
    evidenceWeight, priorWeight, clampScore, initialPersonalityProfile, c1Evidence,
    UpdatedScores.mk.injEq, DimUpdate.mk.injEq]

/-- C5: after every trait update the evidence log has at most 50 entries,
and it is exactly the 50 most recent entries of the appended log in their
original order, the new entry last (FIFO eviction of exactly the oldest
entries). -/
theorem claim5_evidence_log_fifo_bound (p : PersonalityProfile) (ev : Evidence)
    (session_summary ts : String) :
    (updateProfileFromSession p ev session_summary ts).evidence_log.length ≤ 50 ∧
      (updateProfileFromSession p ev session_summary ts).evidence_log =
        (p.evidence_log ++ [mkEvidenceEntry ts session_summary ev]).drop
          (p.evidence_log.length + 1 - 50) :=
  ⟨addEvidenceToLog_length_le p.evidence_log _, addEvidenceToLog_eq p.evidence_log _⟩

/-- C8: the type classifier resolves each dimension independently against
the 0.5 midpoint, `score > 0.5` selecting the E/S/T/J pole and
`score ≤ 0.5` (ties included) the I/N/F/P pole; the all-0.5 profile
classifies to exactly "INFP". -/
theorem claim8_mbti_tie_break :
    (∀ p : PersonalityProfile,
      calculateMbtiType p = String.mk
        [if p.extroversion_score ≤ 0.5 then 'I' else 'E',
         if p.sensing_score ≤ 0.5 then 'N' else 'S',
         if p.thinking_score ≤ 0.5 then 'F' else 'T',
         if p.judging_score ≤ 0.5 then 'P' else 'J']) ∧
      calculateMbtiType initialPersonalityProfile = "INFP" := by
  constructor
  · intro p
    unfold calculateMbtiType
    rw [poleChar _ 'E' 'I', poleChar _ 'S' 'N', poleChar _ 'T' 'F', poleChar _ 'J' 'P']
  · norm_num [calculateMbtiType, initialPersonalityProfile]

/-- C2: for every profile whose four scores and four confidences lie in
`[0, 1]` and every evidence input whose per-dimension point estimates lie in
`[0, 1]`, every score and every confidence of the updated profile again
lies in `[0, 1]`. -/
theorem claim2_update_preserves_unit_interval (p : PersonalityProfile) (ev : Evidence)
    (session_summary ts : String) (hp : profileInRange p)
    (_hev : evidenceScoresInRange ev) :
    profileInRange (updateProfileFromSession p ev session_summary ts) := by
  obtain ⟨-, -, -, -, hec, hsc, htc, hjc⟩ := hp
  exact ⟨updateDim_score_bounds p.extroversion_score p.extroversion_confidence
      p.sessions_analyzed ev.extroversion,
    updateDim_score_bounds p.sensing_score p.sensing_confidence
      p.sessions_analyzed ev.sensing,
    updateDim_score_bounds p.thinking_score p.thinking_confidence
      p.sessions_analyzed ev.thinking,
    updateDim_score_bounds p.judging_score p.judging_confidence
      p.sessions_analyzed ev.judging,
    updateDim_confidence_bounds p.extroversion_score p.extroversion_confidence
      p.sessions_analyzed ev.extroversion hec.1 hec.2,
    updateDim_confidence_bounds p.sensing_score p.sensing_confidence
      p.sessions_analyzed ev.sensing hsc.1 hsc.2,
    updateDim_confidence_bounds p.thinking_score p.thinking_confidence
      p.sessions_analyzed ev.thinking htc.1 htc.2,
    updateDim_confidence_bounds p.judging_score p.judging_confidence
      p.sessions_analyzed ev.judging hjc.1 hjc.2⟩

/-- Witness for C2: the initial profile and the C1 evidence satisfy the
hypotheses, and the resulting profile is in range. -/
theorem claim2_update_preserves_unit_interval_witness :
    profileInRange initialPersonalityProfile ∧ evidenceScoresInRange c1Evidence ∧
      profileInRange (updateProfileFromSession initialPersonalityProfile c1Evidence "s" "t") := by
  have h1 : profileInRange initialPersonalityProfile := by
    norm_num [profileInRange, initialPersonalityProfile]
  have h2 : evidenceScoresInRange c1Evidence := by
    refine ⟨fun d s hd hs => ?_, fun d s hd => by simp [c1Evidence] at hd,
      fun d s hd => by simp [c1Evidence] at hd, fun d s hd => by simp [c1Evidence] at hd⟩
    simp only [c1Evidence, Option.some.injEq] at hd
    subst hd
    simp only [Option.some.injEq] at hs
    subst hs
    norm_num
  exact ⟨h1, h2, claim2_update_preserves_unit_interval _ _ "s" "t" h1 h2⟩

/-- C6: for every profile with per-dimension confidences in `[0, 1]` and
every evidence input, each dimension's confidence after the trait update is
at least its confidence before the update. -/
theorem claim6_confidence_monotone (p : PersonalityProfile) (ev : Evidence)
    (session_summary ts : String) (hp : confidencesInRange p) :
    p.extroversion_confidence ≤
        (updateProfileFromSession p ev session_summary ts).extroversion_confidence ∧
      p.sensing_confidence ≤
        (updateProfileFromSession p ev session_summary ts).sensing_confidence ∧
      p.thinking_confidence ≤
        (updateProfileFromSession p ev session_summary ts).thinking_confidence ∧
      p.judging_confidence ≤
        (updateProfileFromSession p ev session_summary ts).judging_confidence := by
  obtain ⟨hec, hsc, htc, hjc⟩ := hp
  exact ⟨updateDim_confidence_mono p.extroversion_score p.extroversion_confidence
      p.sessions_analyzed ev.extroversion hec.2,
    updateDim_confidence_mono p.sensing_score p.sensing_confidence
      p.sessions_analyzed ev.sensing hsc.2,
    updateDim_confidence_mono p.thinking_score p.thinking_confidence
      p.sessions_analyzed ev.thinking htc.2,
    updateDim_confidence_mono p.judging_score p.judging_confidence
      p.sessions_analyzed ev.judging hjc.2⟩

/-- Witness for C6 at the initial profile and the C1 evidence. -/
theorem claim6_confidence_monotone_witness :
    confidencesInRange initialPersonalityProfile ∧
      initialPersonalityProfile.extroversion_confidence ≤
        (updateProfileFromSession initialPersonalityProfile c1Evidence "s" "t").extroversion_confidence := by
  have h1 : confidencesInRange initialPersonalityProfile := by
    norm_num [confidencesInRange, initialPersonalityProfile]
  exact ⟨h1, (claim6_confidence_monotone initialPersonalityProfile c1Evidence "s" "t" h1).1⟩

/-- Counterexample to C7 as stated: quantified over every prior profile
state, the claim fails — with an out-of-range extroversion score 1.5 and
evidence omitting every dimension, the defensive clamp changes the score to
1, so the update is not a no-op on that dimension. -/
theorem claim7_missing_dimension_counterexample :
    emptyEvidence.extroversion = none ∧
      (bayesianUpdate { initialPersonalityProfile with extroversion_score := 1.5 }
          emptyEvidence).extroversion.score ≠
        ({ initialPersonalityProfile with extroversion_score := 1.5 } :
          PersonalityProfile).extroversion_score := by
  refine ⟨rfl, ?_⟩
  norm_num [bayesianUpdate, updateDim, rawUpdatedScore, updatedConfidence,
    evidenceWeight, priorWeight, clampScore, initialPersonalityProfile, emptyEvidence]

/-- C7 amended: if the evidence object omits a dimension entirely, the trait
update leaves that dimension's score and confidence exactly unchanged,
provided that dimension's current score lies in `[0, 1]` and its current
confidence is at most 1 (the claim as stated fails on out-of-range profile
states, where the defensive clamp or the confidence saturation changes the
value). -/
theorem claim7_missing_dimension_noop (p : PersonalityProfile) (ev : Evidence) :
    (ev.extroversion = none → 0 ≤ p.extroversion_score → p.extroversion_score ≤ 1 →
      p.extroversion_confidence ≤ 1 →
      (bayesianUpdate p ev).extroversion = ⟨p.extroversion_score, p.extroversion_confidence⟩) ∧
    (ev.sensing = none → 0 ≤ p.sensing_score → p.sensing_score ≤ 1 →
      p.sensing_confidence ≤ 1 →
      (bayesianUpdate p ev).sensing = ⟨p.sensing_score, p.sensing_confidence⟩) ∧
    (ev.thinking = none → 0 ≤ p.thinking_score → p.thinking_score ≤ 1 →
      p.thinking_confidence ≤ 1 →
      (bayesianUpdate p ev).thinking = ⟨p.thinking_score, p.thinking_confidence⟩) ∧
    (ev.judging = none → 0 ≤ p.judging_score → p.judging_score ≤ 1 →
      p.judging_confidence ≤ 1 →
      (bayesianUpdate p ev).judging = ⟨p.judging_score, p.judging_confidence⟩) := by
  refine ⟨fun h h0 h1 hc => ?_, fun h h0 h1 hc => ?_, fun h h0 h1 hc => ?_,
    fun h h0 h1 hc => ?_⟩ <;>
    simp only [bayesianUpdate, h] <;> exact updateDim_none _ _ _ h0 h1 hc

/-- Witness for the amended C7: the neutral initial profile with all
dimensions omitted from the evidence. -/
theorem claim7_missing_dimension_noop_witness :
    emptyEvidence.extroversion = none ∧
      (bayesianUpdate initialPersonalityProfile emptyEvidence).extroversion =
        ⟨initialPersonalityProfile.extroversion_score,
          initialPersonalityProfile.extroversion_confidence⟩ :=
  ⟨rfl, (claim7_missing_dimension_noop initialPersonalityProfile emptyEvidence).1 rfl
    (by norm_num [initialPersonalityProfile]) (by norm_num [initialPersonalityProfile])
    (by norm_num [initialPersonalityProfile])⟩

/-- Counterexample to C10 as stated: with current score 0 and evidence score
1 (both in `[0, 1]`) but a negative current confidence -1 after 1 session
and 3 snippets, the prior weight is negative, the pre-clamp weighted score
is 1.5 — outside `[0, 1]` — and the defensive clamp does change it. -/
theorem claim10_convexity_counterexample :
    ¬ rawUpdatedScore 0 (-1) 1 1 3 ≤ 1 ∧
      clampScore (rawUpdatedScore 0 (-1) 1 1 3) ≠ rawUpdatedScore 0 (-1) 1 1 3 := by
  constructor
  · norm_num [rawUpdatedScore, evidenceWeight, priorWeight]
  · norm_num [rawUpdatedScore, evidenceWeight, priorWeight, clampScore]

/-- C10 amended: when the current score, the evidence score AND the current
confidence are admissible (scores in `[0, 1]`, confidence nonnegative, so
that both blend weights are nonnegative), the pre-clamp updated score is a
convex combination lying in `[0, 1]` and the defensive clamp
`max(0.0, min(1.0, x))` returns it unchanged. -/
theorem claim10_raw_score_in_range (score conf evScore : ℚ) (sessions strength : ℕ)
    (hs0 : 0 ≤ score) (hs1 : score ≤ 1) (he0 : 0 ≤ evScore) (he1 : evScore ≤ 1)
    (hc : 0 ≤ conf) :
    (0 ≤ rawUpdatedScore score conf sessions evScore strength ∧
        rawUpdatedScore score conf sessions evScore strength ≤ 1) ∧
      clampScore (rawUpdatedScore score conf sessions evScore strength) =
        rawUpdatedScore score conf sessions evScore strength := by
  obtain ⟨h0, h1⟩ := rawUpdatedScore_mem score conf evScore sessions strength hs0 hs1 he0 he1 hc
  exact ⟨⟨h0, h1⟩, clampScore_eq_self h0 h1⟩

/-- Witness for the amended C10 at score 0.5, confidence 0.2, evidence
score 0.8, one session and three snippets. -/
theorem claim10_raw_score_in_range_witness :
    (0 ≤ rawUpdatedScore 0.5 0.2 1 0.8 3 ∧ rawUpdatedScore 0.5 0.2 1 0.8 3 ≤ 1) ∧
      clampScore (rawUpdatedScore 0.5 0.2 1 0.8 3) = rawUpdatedScore 0.5 0.2 1 0.8 3 :=
  claim10_raw_score_in_range 0.5 0.2 0.8 1 3 (by norm_num) (by norm_num) (by norm_num)
    (by norm_num) (by norm_num)

/-! ## Helper lemmas about the memory store -/

/-- Every hit of a scoped collection query is a record of the collection
whose metadata owner equals the queried owner. -/
theorem chromaQuery_mem (c : ChromaCollection) (qe : List ℚ) (uid : String) (k : ℕ)
    (r : ChromaRecord) (d : ℚ) (h : (r, d) ∈ chromaQuery c qe uid k) :
    r ∈ c ∧ r.user_id = uid := by
  unfold chromaQuery at h
  have h1 := (List.take_sublist k _).subset h
  have h2 := (List.perm_insertionSort distLE _).subset h1
  obtain ⟨r', hr', heq⟩ := List.mem_map.mp h2
  obtain ⟨hrc, hbeq⟩ := List.mem_filter.mp hr'
  obtain ⟨hr, -⟩ := Prod.mk.injEq .. ▸ heq
  subst hr
  exact ⟨hrc, by simpa using hbeq⟩

/-- A record present after a `store_message` call was present before, or is
the record of that very call. -/
theorem store_message_mem (embed : EmbedFn) (c : ChromaCollection)
    (uid message mid ts : String) (r : ChromaRecord)
    (h : r ∈ (store_message embed c uid message mid ts).1) :
    r ∈ c ∨ (r.user_id = uid ∧ r.message_id = mid ∧ r.document = message) := by
  unfold store_message at h
  cases hgen : generateEmbedding embed message with
  | none => rw [hgen] at h; exact Or.inl h
  | some e =>
    rw [hgen] at h
    simp only [save_to_chroma, chromaAdd, List.mem_append, List.mem_singleton] at h
    rcases h with h | h
    · exact Or.inl h
    · subst h
      exact Or.inr ⟨rfl, rfl, rfl⟩

/-- A record present after replaying a sequence of stores was present
initially, or carries the owner, message and id of one of the stores. -/
theorem runStores_mem (embed : EmbedFn) (ops : List StoreOp) (c : ChromaCollection)
    (r : ChromaRecord) (h : r ∈ runStores embed c ops) :
    r ∈ c ∨ ∃ op ∈ ops,
      r.user_id = op.user_id ∧ r.message_id = op.message_id ∧ r.document = op.message := by
  induction ops generalizing c with
  | nil => exact Or.inl h
  | cons op ops ih =>
    rcases ih _ h with h1 | ⟨op', hop', hfields⟩
    · rcases store_message_mem embed c op.user_id op.message op.message_id op.created_at r h1
        with h2 | h2
      · exact Or.inl h2
      · exact Or.inr ⟨op, List.mem_cons_self op ops, h2⟩
    · exact Or.inr ⟨op', List.mem_cons_of_mem op hop', hfields⟩

/-- Every similar-message hit stems from a collection record owned by the
queried user, with matching id and text. -/
theorem find_similar_messages_mem (embed : EmbedFn) (c : ChromaCollection)
    (uid message : String) (top_k : ℕ) (m : SimilarMessage)
    (h : m ∈ (find_similar_messages embed c uid message top_k).similar_messages) :
    ∃ r ∈ c, r.user_id = uid ∧ m.message_id = r.message_id ∧ m.message = r.document := by
  unfold find_similar_messages at h
  cases hgen : generateEmbedding embed message with
  | none => rw [hgen] at h; simp at h
  | some qe =>
    rw [hgen] at h
    simp only [List.mem_map] at h
    obtain ⟨⟨r, d⟩, hrd, heq⟩ := h
    obtain ⟨hrc, huid⟩ := chromaQuery_mem c qe uid top_k r d hrd
    subst heq
    exact ⟨r, hrc, huid, rfl, rfl⟩

/-! ## Claim theorems: memory subsystem -/

/-- C3: owner isolation — for every sequence of store operations by any mix
of owners, every message returned by a similarity query scoped to
`owner_A` stems from a store operation performed by `owner_A`; no record
stored under a different owner ever surfaces. -/
theorem claim3_query_owner_isolation (embed : EmbedFn) (ops : List StoreOp)
    (uid message : String) (top_k : ℕ) (m : SimilarMessage)
    (h : m ∈ (find_similar_messages embed (runStores embed [] ops)
      uid message top_k).similar_messages) :
    ∃ op ∈ ops, op.user_id = uid ∧ m.message_id = op.message_id ∧ m.message = op.message := by
  obtain ⟨r, hrc, huid, hid, hdoc⟩ :=
    find_similar_messages_mem embed (runStores embed [] ops) uid message top_k m h
  rcases runStores_mem embed ops [] r hrc with h1 | ⟨op, hop, hu, hi, hd⟩
  · simp at h1
  · exact ⟨op, hop, hu ▸ huid, hi ▸ hid, hd ▸ hdoc⟩

/-- C4: if the embedding collaborator fails, or returns a vector whose
length is not 1536, `store_message` returns a failure result and leaves
every store untouched — no record is persisted. -/
theorem claim4_store_fails_cleanly_on_bad_embedding (embed : EmbedFn)
    (c : ChromaCollection) (uid message mid ts : String)
    (h : embed message = none ∨ ∀ v, embed message = some v → v.length ≠ 1536) :
    (store_message embed c uid message mid ts).2.success = false ∧
      (store_message embed c uid message mid ts).1 = c := by
  have hgen : generateEmbedding embed message = none := by
    unfold generateEmbedding
    cases hv : embed message with
    | none => rfl
    | some v =>
      rcases h with h | h
      · rw [hv] at h; cases h
      · show (if v.length = 1536 then some v else none) = none
        rw [if_neg (h v hv)]
  unfold store_message
  rw [hgen]
  exact ⟨rfl, rfl⟩

/-- Every kept message of the deduplication pass occurs in the input, has a
truthy (nonempty) id, and its id was not among the already-seen ids. -/
theorem removeDuplicateMessages_props (l : List SimilarMessage) :
    ∀ (seen : List String) (m : SimilarMessage), m ∈ removeDuplicateMessages seen l →
      m ∈ l ∧ m.message_id ≠ "" ∧ m.message_id ∉ seen := by
  induction l with
  | nil =>
    intro seen m h
    simp [removeDuplicateMessages] at h
  | cons x xs ih =>
    intro seen m h
    simp only [removeDuplicateMessages] at h
    split_ifs at h with hc
    · rcases List.mem_cons.mp h with h1 | h1
      · subst h1
        exact ⟨List.mem_cons_self m xs, hc.1, hc.2⟩
      · obtain ⟨hm, hne, hns⟩ := ih _ _ h1
        refine ⟨List.mem_cons_of_mem x hm, hne, fun hs => ?_⟩
        exact hns (List.mem_cons_of_mem _ hs)
    · obtain ⟨hm, hne, hns⟩ := ih _ _ h
      exact ⟨List.mem_cons_of_mem x hm, hne, hns⟩

/-- The deduplication pass returns pairwise distinct message ids. -/
theorem removeDuplicateMessages_nodup (l : List SimilarMessage) :
    ∀ seen, List.Pairwise (fun a b => a.message_id ≠ b.message_id)
      (removeDuplicateMessages seen l) := by
  induction l with
  | nil => intro seen; simp [removeDuplicateMessages]
  | cons x xs ih =>
    intro seen
    simp only [removeDuplicateMessages]
    split_ifs with hc
    · refine List.Pairwise.cons (fun b hb he => ?_) (ih _)
      have hb' := (removeDuplicateMessages_props xs _ b hb).2.2
      exact hb' (by rw [← he]; exact List.mem_cons_self _ _)
    · exact ih _

/-- The deduplication pass returns a sublist of its input. -/
theorem removeDuplicateMessages_sublist (l : List SimilarMessage) :
    ∀ seen, List.Sublist (removeDuplicateMessages seen l) l := by
  induction l with
  | nil => intro seen; simp [removeDuplicateMessages]
  | cons x xs ih =>
    intro seen
    simp only [removeDuplicateMessages]
    split_ifs with hc
    · exact (ih _).cons₂ x
    · exact (ih _).cons x

/-- On a descending-sorted pool, each kept message dominates the similarity
score of every pooled occurrence carrying the same id. -/
theorem removeDuplicateMessages_max (l : List SimilarMessage) :
    ∀ seen, List.Pairwise simDescRel l →
      ∀ m ∈ removeDuplicateMessages seen l, ∀ m' ∈ l,
        m'.message_id = m.message_id → m'.similarity_score ≤ m.similarity_score := by
  induction l with
  | nil =>
    intro seen _ m hm
    simp [removeDuplicateMessages] at hm
  | cons x xs ih =>
    intro seen hp m hm m' hm' hid
    obtain ⟨hx, hxs⟩ := List.pairwise_cons.mp hp
    simp only [removeDuplicateMessages] at hm
    split_ifs at hm with hc
    · rcases List.mem_cons.mp hm with h1 | h1
      · subst h1
        rcases List.mem_cons.mp hm' with h2 | h2
        · subst h2; exact le_refl _
        · exact hx m' h2
      · have hprops := removeDuplicateMessages_props xs _ m h1
        rcases List.mem_cons.mp hm' with h2 | h2
        · exfalso
          subst h2
          exact hprops.2.2 (by rw [hid]; exact List.mem_cons_self _ _)
        · exact ih _ hxs m h1 m' h2 hid
    · have hprops := removeDuplicateMessages_props xs _ m hm
      rcases List.mem_cons.mp hm' with h2 | h2
      · exfalso
        subst h2
        rcases not_and_or.mp hc with h3 | h3
        · exact hprops.2.1 (by rw [← hid]; exact not_not.mp h3)
        · exact hprops.2.2 (by rw [← hid]; exact not_not.mp h3)
      · exact ih _ hxs m hm m' h2 hid

/-- C9: for every store contents and every emotion vocabulary, the
emotional-insights result has at most 10 messages, pairwise distinct by
message id, ordered by similarity score descending, and each returned
message carries the highest similarity score among all pooled occurrences
of its id. -/
theorem claim9_emotional_insights_shape (embed : EmbedFn) (c : ChromaCollection)
    (uid : String) (emotion_keywords : List String) :
    (get_emotional_insights embed c uid emotion_keywords).emotional_messages.length ≤ 10 ∧
      List.Pairwise (fun a b => a.message_id ≠ b.message_id)
        (get_emotional_insights embed c uid emotion_keywords).emotional_messages ∧
      List.Pairwise simDescRel
        (get_emotional_insights embed c uid emotion_keywords).emotional_messages ∧
      ∀ m ∈ (get_emotional_insights embed c uid emotion_keywords).emotional_messages,
        ∀ m' ∈ pooledEmotionalMessages embed c uid emotion_keywords,
          m'.message_id = m.message_id → m'.similarity_score ≤ m.similarity_score := by
  have hsorted : List.Pairwise simDescRel
      (List.insertionSort simDescRel (pooledEmotionalMessages embed c uid emotion_keywords)) :=
    List.sorted_insertionSort simDescRel _
  refine ⟨?_, ?_, ?_, ?_⟩
  · exact List.length_take_le 10 (removeDuplicateMessages []
      (List.insertionSort simDescRel (pooledEmotionalMessages embed c uid emotion_keywords)))
  · exact (removeDuplicateMessages_nodup _ []).sublist (List.take_sublist 10 _)
  · exact (hsorted.sublist (removeDuplicateMessages_sublist _ [])).sublist
      (List.take_sublist 10 _)
  · intro m hm m' hm' hid
    have hmU : m ∈ removeDuplicateMessages []
        (List.insertionSort simDescRel (pooledEmotionalMessages embed c uid emotion_keywords)) :=
      (List.take_sublist 10 _).subset hm
    have hmS : m' ∈ List.insertionSort simDescRel
        (pooledEmotionalMessages embed c uid emotion_keywords) :=
      (List.perm_insertionSort simDescRel _).symm.subset hm'
    exact removeDuplicateMessages_max _ [] hsorted m hmU m' hmS hid

/-! ## Concrete witness inputs for the memory claims -/

theorem sqDist_self (a : List ℚ) : sqDist a a = 0 := by
  induction a with
  | nil => rfl
  | cons x xs ih =>
    show (x - x) * (x - x) + sqDist xs xs = 0
    rw [ih]
    ring

/-- Embedding collaborator that returns the all-zero 1536-vector. -/
def zeroEmbed : EmbedFn := fun _ => some (List.replicate 1536 0)

/-- Embedding collaborator that returns a 1-dimensional vector (wrong
length). -/
def shortEmbed : EmbedFn := fun _ => some [1]

/-- Two store operations by two different owners. -/
def twoOwnerOps : List StoreOp :=
  [{ user_id := "u1", message := "hello", message_id := "m1", created_at := "t1" },
   { user_id := "u2", message := "hi", message_id := "m2", created_at := "t2" }]

/-- The hit that owner u1's query returns on `twoOwnerOps`. -/
def u1Hit : SimilarMessage :=
  { message := "hello", message_id := "m1", created_at := "t1",
    similarity_score := 1, distance := 0, detected_emotion := "" }

/-- The u1 record as it sits in the collection after `twoOwnerOps`. -/
def u1Record : ChromaRecord :=
  { id := "m1", document := "hello", embedding := List.replicate 1536 0,
    user_id := "u1", message_id := "m1", created_at := "t1" }

theorem twoOwnerOps_query :
    (find_similar_messages zeroEmbed (runStores zeroEmbed [] twoOwnerOps)
      "u1" "query" 5).similar_messages = [u1Hit] := by
  set_option maxRecDepth 8192 in
  simp [find_similar_messages, runStores, store_message, generateEmbedding, zeroEmbed,
    save_to_chroma, save_to_database, chromaAdd, twoOwnerOps, chromaQuery, sqDist_self,
    List.insertionSort, List.orderedInsert, u1Hit]

/-- Witness for C3: with two owners having stored overlapping text, the u1
query hit stems from a u1 store operation. -/
theorem claim3_query_owner_isolation_witness :
    u1Hit ∈ (find_similar_messages zeroEmbed (runStores zeroEmbed [] twoOwnerOps)
        "u1" "query" 5).similar_messages ∧
      ∃ op ∈ twoOwnerOps, op.user_id = "u1" ∧ u1Hit.message_id = op.message_id ∧
        u1Hit.message = op.message :=
  ⟨by rw [twoOwnerOps_query]; exact List.mem_singleton.mpr rfl,
    claim3_query_owner_isolation zeroEmbed twoOwnerOps "u1" "query" 5 u1Hit
      (by rw [twoOwnerOps_query]; exact List.mem_singleton.mpr rfl)⟩

/-- Witness for C4: a 1-dimensional embedding makes `store_message` fail
without writing. -/
theorem claim4_store_fails_cleanly_witness :
    (∀ v, shortEmbed "msg" = some v → v.length ≠ 1536) ∧
      (store_message shortEmbed [] "u1" "msg" "m1" "t1").2.success = false ∧
      (store_message shortEmbed [] "u1" "msg" "m1" "t1").1 = [] :=
  ⟨fun v hv => by cases hv; simp [shortEmbed],
    claim4_store_fails_cleanly_on_bad_embedding shortEmbed [] "u1" "msg" "m1" "t1"
      (Or.inr (fun v hv => by cases hv; simp [shortEmbed]))⟩

/-- The pooled, tagged hit that `get_emotional_insights` produces for the
"happy" probe after one u1 store. -/
def happyHit : SimilarMessage :=
  { message := "hello", message_id := "m1", created_at := "t1",
    similarity_score := 1, distance := 0, detected_emotion := "happy" }

theorem happyInsights_messages :
    (get_emotional_insights zeroEmbed [u1Record] "u1" ["happy"]).emotional_messages =
      [happyHit] ∧
      pooledEmotionalMessages zeroEmbed [u1Record] "u1" ["happy"] = [happyHit] := by
  set_option maxRecDepth 8192 in
  constructor <;>
    simp [get_emotional_insights, pooledEmotionalMessages, find_similar_messages,
      generateEmbedding, zeroEmbed, chromaQuery, sqDist_self, u1Record,
      List.insertionSort, List.orderedInsert, removeDuplicateMessages, happyHit]

/-- Witness for C9: on a one-record collection and a one-term vocabulary the
returned hit is a member of the result and dominates every pooled occurrence
of its id. -/
theorem claim9_emotional_insights_shape_witness :
    happyHit ∈ (get_emotional_insights zeroEmbed [u1Record] "u1"
        ["happy"]).emotional_messages ∧
      happyHit.similarity_score ≤ happyHit.similarity_score :=
  ⟨by rw [happyInsights_messages.1]; exact List.mem_singleton.mpr rfl,
    (claim9_emotional_insights_shape zeroEmbed [u1Record] "u1" ["happy"]).2.2.2 happyHit
      (by rw [happyInsights_messages.1]; exact List.mem_singleton.mpr rfl) happyHit
      (by rw [happyInsights_messages.2]; exact List.mem_singleton.mpr rfl) rfl⟩
